import Mathlib

/- Verification development for the better-call-dally monitoring core.

   The Python sources under src/app are shallowly embedded below:
   pure helpers become Lean functions on `String`/`List Char`/`ℚ`/`ℤ`,
   remote I/O is represented by explicit result values (the output a remote
   command produced), exceptions become `Except String`, and Python floats
   are modelled as exact rationals.  Each definition cites the file and
   lines it is translated from. -/

/-! ## Python string primitives (used by src/app/infra/ssh.py) -/

/-- Line boundary characters recognised by Python `str.splitlines`. -/
def isLineBoundary (c : Char) : Bool :=
  c == '\n' || c == '\r' || c == '\x0b' || c == '\x0c' ||
  c == '\x1c' || c == '\x1d' || c == '\x1e' || c == '\u0085' ||
  c == '\u2028' || c == '\u2029'

/-- Characters removed by Python `str.strip()` (the characters `str.isspace`
    accepts: ASCII whitespace, the file/group/record/unit separators, and the
    unicode space code points). -/
def isPySpace (c : Char) : Bool :=
  c == ' ' || c == '\t' || c == '\n' || c == '\r' || c == '\x0b' || c == '\x0c' ||
  c == '\x1c' || c == '\x1d' || c == '\x1e' || c == '\x1f' || c == '\u0085' ||
  c == '\u00a0' || c == '\u1680' || ('\u2000' ≤ c && c ≤ '\u200a') ||
  c == '\u2028' || c == '\u2029' || c == '\u202f' || c == '\u205f' || c == '\u3000'

/-- Python `str.splitlines` on a character list; `acc` holds the characters of
    the current line in reverse.  A `"\r\n"` pair counts as one boundary. -/
def pySplitlinesCore : List Char → List Char → List (List Char)
  | [], acc => if acc.isEmpty then [] else [acc.reverse]
  | [c], acc =>
    if isLineBoundary c then [acc.reverse]
    else [(c :: acc).reverse]
  | c :: d :: rest, acc =>
    if c == '\r' && d == '\n' then acc.reverse :: pySplitlinesCore rest []
    else if isLineBoundary c then acc.reverse :: pySplitlinesCore (d :: rest) []
    else pySplitlinesCore (d :: rest) (c :: acc)

/-- Python `str.splitlines` on a string. -/
def pySplitlines (s : String) : List String :=
  (pySplitlinesCore s.toList []).map fun l => ⟨l⟩

/-- Python `str.strip()` on a character list. -/
def pyStripL (cs : List Char) : List Char :=
  ((cs.dropWhile isPySpace).reverse.dropWhile isPySpace).reverse

/-- Python `str.strip()` on a string. -/
def pyStrip (s : String) : String := ⟨pyStripL s.toList⟩

/-- Python `str.replace old new` on character lists (leftmost, non-overlapping).
    The fuel argument only serves termination; every caller passes more fuel
    than the list is long, so the fuel-exhausted branch is unreachable.  The
    sources only ever call replace with a non-empty `old` (the secret). -/
def replaceFuel (old new : List Char) : Nat → List Char → List Char
  | 0, cs => cs
  | _ + 1, [] => []
  | fuel + 1, c :: rest =>
    if old.isPrefixOf (c :: rest) then
      new ++ replaceFuel old new fuel (rest.drop (old.length - 1))
    else
      c :: replaceFuel old new fuel rest

/-- Python `s.replace(old, new)`. -/
def pyReplace (s old new : String) : String :=
  ⟨replaceFuel old.toList new.toList (s.toList.length + 1) s.toList⟩

/-- Python substring containment `needle in hay` on character lists. -/
def containsSubL (needle : List Char) : List Char → Bool
  | [] => needle.isEmpty
  | c :: rest => needle.isPrefixOf (c :: rest) || containsSubL needle rest

/-- Python substring containment `sub in hay` on strings. -/
def pyContains (hay sub : String) : Bool := containsSubL sub.toList hay.toList

/-- Whether a character list ends with a line feed (Python `endswith("\n")`). -/
def endsNLL : List Char → Bool
  | [] => false
  | [c] => c == '\n'
  | _ :: rest => endsNLL rest

/-- Whether a string ends with `"\n"`. -/
def pyEndsWithNL (s : String) : Bool := endsNLL s.toList

/-- Python `"\n".join` on character lists. -/
def joinNLL : List (List Char) → List Char
  | [] => []
  | [l] => l
  | l :: ls => l ++ '\n' :: joinNLL ls

/-- True when every line-boundary character of the string is a plain `"\n"`
    (no `"\r\n"`, `"\r"`, form feeds, or unicode separators). -/
def onlyLFL (cs : List Char) : Bool := cs.all fun c => !isLineBoundary c || c == '\n'

/-- String version of `onlyLFL`. -/
def onlyLF (s : String) : Bool := onlyLFL s.toList

/-! ## redact_output (src/app/infra/ssh.py lines 36-48) -/

/-- The filtering loop of `redact_output` (ssh.py lines 40-44): a line whose
    stripped content equals the secret is skipped, every other line has each
    inline occurrence of the secret replaced by `"[redacted]"`. -/
def redactLoop (secret : List Char) : List (List Char) → List (List Char)
  | [] => []
  | l :: ls =>
    if pyStripL l = secret then redactLoop secret ls
    else replaceFuel secret "[redacted]".toList (l.length + 1) l :: redactLoop secret ls

/-- `redact_output` (src/app/infra/ssh.py lines 36-48).  `if not text or not
    secret: return text` covers the empty text and a `None` or empty secret. -/
def redact_output (text : String) (secret : Option String) : String :=
  match secret with
  | none => text
  | some sec =>
    if text = "" ∨ sec = "" then text
    else
      let lines := pySplitlinesCore text.toList []
      let filtered := redactLoop sec.toList lines
      let result := joinNLL filtered
      if pyEndsWithNL text then ⟨result ++ ['\n']⟩ else ⟨result⟩

/-- Redaction as claim C7 words it: only lines whose content *equals* the
    secret are removed, every other line has inline occurrences replaced, the
    result is rejoined with `"\n"` and a trailing newline is kept when the
    input had one. -/
def redactClaimed (text : String) (sec : String) : String :=
  let kept := (pySplitlinesCore text.toList []).filter fun l => l ≠ sec.toList
  let replaced := kept.map fun l => replaceFuel sec.toList "[redacted]".toList (l.length + 1) l
  let result := joinNLL replaced
  if pyEndsWithNL text then ⟨result ++ ['\n']⟩ else ⟨result⟩

/-- Redaction as amended: lines equal to the secret *after stripping
    surrounding whitespace* are removed, inline occurrences in the kept lines
    are replaced, lines are rejoined with `"\n"`, and a final `"\n"` is
    appended exactly when the input ends with `"\n"`. -/
def redactAmended (text : String) (sec : String) : String :=
  let kept := (pySplitlinesCore text.toList []).filter fun l => pyStripL l ≠ sec.toList
  let replaced := kept.map fun l => replaceFuel sec.toList "[redacted]".toList (l.length + 1) l
  let result := joinNLL replaced
  if pyEndsWithNL text then ⟨result ++ ['\n']⟩ else ⟨result⟩

/-! ## format_seconds (src/app/infra/ssh.py lines 65-78) -/

/-- Truncation toward zero: Python `int()` applied to a float value. -/
def pyTrunc (q : ℚ) : ℤ := if 0 ≤ q then ⌊q⌋ else -⌊-q⌋

/-- `format_seconds` (src/app/infra/ssh.py lines 65-78).  Python `divmod` with
    the positive divisors used here is Euclidean quotient and remainder, so it
    is modelled with `Int.ediv` and `%` (`Int.emod`). -/
def format_seconds (seconds : Option ℚ) : String :=
  match seconds with
  | none => "n/a"
  | some s =>
    let remaining := pyTrunc s
    let days := remaining.ediv 86400
    let rem1 := remaining % 86400
    let hours := rem1.ediv 3600
    let rem2 := rem1 % 3600
    let minutes := rem2.ediv 60
    let secs := rem2 % 60
    if days ≠ 0 then s!"{days}d {hours}h {minutes}m"
    else if hours ≠ 0 then s!"{hours}h {minutes}m"
    else if minutes ≠ 0 then s!"{minutes}m {secs}s"
    else s!"{secs}s"

/-- The duration formatter as claim C9 words it: at most the largest
    applicable unit *pair* — `d h` for at least one day, `h m`, `m s`, else
    `s` alone; `"n/a"` for null input. -/
def format_seconds_pairs (seconds : Option ℚ) : String :=
  match seconds with
  | none => "n/a"
  | some s =>
    let remaining := pyTrunc s
    let days := remaining.ediv 86400
    let rem1 := remaining % 86400
    let hours := rem1.ediv 3600
    let rem2 := rem1 % 3600
    let minutes := rem2.ediv 60
    let secs := rem2 % 60
    if days ≠ 0 then s!"{days}d {hours}h"
    else if hours ≠ 0 then s!"{hours}h {minutes}m"
    else if minutes ≠ 0 then s!"{minutes}m {secs}s"
    else s!"{secs}s"

/-- The duration formatter as amended: for at least one day the *triple*
    `d h m` is produced; the remaining branches are the pairs `h m`, `m s` and
    `s`.  Each component is computed directly from the truncated duration. -/
def format_seconds_amended (s : ℚ) : String :=
  let t := pyTrunc s
  let days := t.ediv 86400
  let hours := (t % 86400).ediv 3600
  let minutes := (t % 3600).ediv 60
  let secs := t % 60
  if days ≠ 0 then s!"{days}d {hours}h {minutes}m"
  else if hours ≠ 0 then s!"{hours}h {minutes}m"
  else if minutes ≠ 0 then s!"{minutes}m {secs}s"
  else s!"{secs}s"

/-! ## Server descriptors (src/app/servers/models.py lines 21-32) -/

/-- `Server` (src/app/servers/models.py lines 21-32). -/
structure Server where
  id : String
  name : Option String := Option.none
  host : String
  port : Nat
  user : String
  password : Option String := Option.none
  key_path : Option String := Option.none
  pm2_user : Option String := Option.none
  pm2_home : Option String := Option.none
  tags : List String := []
  enabled : Bool
deriving DecidableEq

/-! ## Server registry (src/app/servers/repository.py lines 21-33) -/

/-- `ServerRepository.add` acting on the persisted list that `_load` returned:
    the duplicate scan over the existing entries (lines 24-30), and on success
    `_save` of the appended list (lines 31-32).  The `ValueError` is the
    `Except.error` case; the first component is the persisted list after the
    call (unchanged when the error is raised, because `_save` never runs). -/
def ServerRepository_add (persisted : List Server) (server : Server) :
    List Server × Except String Server :=
  if persisted.any fun existing =>
      existing.host == server.host && existing.port == server.port &&
        existing.user == server.user
  then (persisted, Except.error "Server already exists for host/port/user")
  else (persisted ++ [server], Except.ok server)

/-! ## Realtime hub scheduler (src/app/realtime/hub.py) -/

/-- A per-socket subscription (hub.py lines 22-25). -/
structure Subscription where
  interval_s : ℚ
  detail : String
deriving DecidableEq

/-- A cached broadcast (hub.py lines 28-32); the JSON payload dict is opaque
    to the scheduler and modelled as a string. -/
structure CacheEntry where
  payload : String
  fetched_at : ℚ
  detail : String
deriving DecidableEq

/-- The active interval of a tick (hub.py line 146): the minimum requested
    interval over the server's subscribers, the 10 s default if none. -/
def tickInterval : List Subscription → ℚ
  | [] => 10
  | sub :: subs => (subs.map fun s => s.interval_s).foldl min sub.interval_s

/-- The active detail level of a tick (hub.py line 147): `"full"` when any
    subscriber asked for full detail, else `"summary"`. -/
def tickDetail (subs : List Subscription) : String :=
  if subs.any fun s => s.detail == "full" then "full" else "summary"

/-- Due-ness as computed by `RealtimeHub._tick` (hub.py line 149). -/
def tickDue (now : ℚ) (subs : List Subscription) (cache : Option CacheEntry) : Bool :=
  match cache with
  | none => true
  | some c =>
    decide (now - c.fetched_at ≥ tickInterval subs) || decide (c.detail ≠ tickDetail subs)

/-- Due-ness as claim C5 words it: no cache entry, elapsed time at least the
    minimum subscriber interval, or the active detail level is full while the
    cache holds summary; in particular a downgrade is *not* due. -/
def claimDue (now : ℚ) (subs : List Subscription) (cache : Option CacheEntry) : Bool :=
  match cache with
  | none => true
  | some c =>
    decide (now - c.fetched_at ≥ tickInterval subs) ||
      (tickDetail subs == "full" && c.detail == "summary")

/-- A decoded JSON value, as Python `json.loads` can produce for the
    `interval_ms` field of a subscription message (absent key gives `None`);
    container contents are irrelevant to interval normalisation. -/
inductive PyVal where
  | none
  | bool (b : Bool)
  | int (n : ℤ)
  | float (q : ℚ)
  | str (s : String)
  | list
  | dict
deriving DecidableEq

/-- `RealtimeHub._normalize_interval` (hub.py lines 224-229).  Python
    `isinstance(x, (int, float))` also accepts booleans because `bool` is a
    subclass of `int`: `True` counts as 1 and `False` as 0. -/
def normalize_interval (v : PyVal) : ℚ :=
  match v with
  | .int n => max 3 (min 60 ((n : ℚ) / 1000))
  | .float q => max 3 (min 60 (q / 1000))
  | .bool b => max 3 (min 60 ((if b then 1 else 0) / 1000))
  | _ => 10

/-- Whether a JSON value is a number (claim C8's "numeric input"): an integer
    or a float; a boolean is not a JSON number. -/
def isJsonNumber (v : PyVal) : Bool :=
  match v with
  | .int _ => true
  | .float _ => true
  | _ => false

/-- The numeric value of a JSON number. -/
def jsonNumberVal (v : PyVal) : Option ℚ :=
  match v with
  | .int n => some ((n : ℚ))
  | .float q => some q
  | _ => Option.none

/-- A sample registry entry for the C10 witness. -/
def srvReg : Server :=
  { id := "a", host := "h", port := 22, user := "root", enabled := true }

/-- A server that duplicates `srvReg`'s (host, port, user) triple. -/
def srvDup : Server :=
  { id := "b", host := "h", port := 22, user := "root", enabled := true }

/-- A server with a fresh (host, port, user) triple. -/
def srvNew : Server :=
  { id := "c", host := "h2", port := 22, user := "root", enabled := true }

/-! ## Remote command results and the pm2 probe (src/app/infra/ssh.py) -/

/-- The result of one remote command, `SshResult` (ssh.py lines 29-33). -/
structure SshResult where
  stdout : String
  stderr : String
  exit_code : ℤ
deriving DecidableEq

/-- A decoded JSON value as `extract_json_array` (ssh.py lines 264-275) can
    hand to the pm2 loop. -/
inductive JVal where
  | null
  | bool (b : Bool)
  | int (n : ℤ)
  | num (q : ℚ)
  | str (s : String)
  | arr (elems : List JVal)
  | obj (fields : List (String × JVal))

/-- The Python type name of a JSON value, as it appears in error messages. -/
def jTypeName : JVal → String
  | .null => "NoneType"
  | .bool _ => "bool"
  | .int _ => "int"
  | .num _ => "float"
  | .str _ => "str"
  | .arr _ => "list"
  | .obj _ => "dict"

/-- Whether a JSON value is a Python dict (`isinstance(x, dict)`). -/
def isJDict : JVal → Bool
  | .obj _ => true
  | _ => false

/-- Python `x.get(key)` for `x` decoded from JSON: `None` when the key is
    absent.  Calling `.get` on anything but a dict raises `AttributeError`,
    exactly as at ssh.py line 332 when a pm2 array element is not an object. -/
def jGet : JVal → String → Except String (Option JVal)
  | .obj fields, key => Except.ok ((fields.find? fun kv => kv.1 == key).map fun kv => kv.2)
  | v, _ =>
    Except.error
      ("AttributeError: '" ++ jTypeName v ++ "' object has no attribute 'get'")

/-- Python `x.get(key, default)`: the default only applies when the key is
    absent, not when it holds `None`. -/
def jGetD (v : JVal) (key : String) (dflt : JVal) : Except String JVal :=
  (jGet v key).map fun o => o.getD dflt

/-- The numeric value of a run of decimal digits. -/
def natOfDigits (cs : List Char) : Nat :=
  cs.foldl (fun a c => a * 10 + (c.toNat - 48)) 0

/-- Python `int(s)` on a string: surrounding whitespace allowed, an optional
    sign, then decimal digits (digit-group underscores are not modelled; no
    probe output uses them).  `None` models the `ValueError`. -/
def parseIntStr (s : String) : Option ℤ :=
  match pyStripL s.toList with
  | [] => Option.none
  | c :: rest =>
    if c == '+' then
      if rest ≠ [] ∧ rest.all Char.isDigit then some ((natOfDigits rest : ℤ)) else Option.none
    else if c == '-' then
      if rest ≠ [] ∧ rest.all Char.isDigit then some (-(natOfDigits rest : ℤ)) else Option.none
    else
      if (c :: rest).all Char.isDigit then some ((natOfDigits (c :: rest) : ℤ)) else Option.none

/-- Python `int(x)` on a JSON value with `TypeError`/`ValueError` mapped to
    `none`, as in the `try`/`except` at ssh.py lines 324-327: ints pass
    through, booleans count 0/1, floats truncate toward zero, numeric strings
    parse, everything else would raise and yields `none`. -/
def pyIntOpt : JVal → Option ℤ
  | .int n => some n
  | .bool b => some (if b then 1 else 0)
  | .num q => some (pyTrunc q)
  | .str s => parseIntStr s
  | _ => Option.none

/-- One pm2 process record, `Pm2Process` (models.py lines 26-39).  The loop at
    ssh.py lines 330-346 passes the raw values `.get` returned; pydantic's
    validation of those loosely typed values is not modelled (no claim
    concerns it), so the fields hold the JSON values themselves, except for
    `memory_bytes` which the code converts with `int()` itself. -/
structure Pm2Process where
  id : Option JVal := Option.none
  name : Option JVal := Option.none
  namespace_ : Option JVal := Option.none
  version : Option JVal := Option.none
  mode : Option JVal := Option.none
  pid : Option JVal := Option.none
  uptime : Option JVal := Option.none
  restarts : Option JVal := Option.none
  status : Option JVal := Option.none
  cpu : Option JVal := Option.none
  memory_bytes : Option ℤ := Option.none
  user : Option JVal := Option.none
  watching : Option JVal := Option.none

/-- `Pm2Info` (models.py lines 42-46). -/
structure Pm2Info where
  total_memory_bytes : Option ℤ := Option.none
  processes : Option Nat := Option.none
  details : Option (List Pm2Process) := Option.none
  error : Option String := Option.none

/-- The loop of `fetch_pm2_details` over the decoded array (ssh.py lines
    318-346), returning the process records and the memory total, or the
    exception the loop raises.  `pm2_env` and `monit` fall back to `{}` only
    under the `isinstance(proc, dict)` guard, but `proc.get("pm_id")` and the
    later field reads are unguarded. -/
def pm2Loop : List JVal → Except String (List Pm2Process × ℤ)
  | [] => Except.ok ([], 0)
  | proc :: rest => do
    let pm2_env ← if isJDict proc then jGetD proc "pm2_env" (JVal.obj []) else pure (JVal.obj [])
    let monit ← if isJDict proc then jGetD proc "monit" (JVal.obj []) else pure (JVal.obj [])
    let memory ← jGet monit "memory"
    let mem_bytes := match memory with
      | some v => pyIntOpt v
      | Option.none => Option.none
    let idv ← jGet proc "pm_id"
    let namev ← jGet proc "name"
    let nsv ← jGet pm2_env "namespace"
    let verv ← jGet pm2_env "version"
    let modev ← jGet pm2_env "exec_mode"
    let pidv ← jGet proc "pid"
    let upv ← jGet pm2_env "pm_uptime"
    let restv ← jGet pm2_env "restart_time"
    let statusv ← jGet pm2_env "status"
    let cpuv ← jGet monit "cpu"
    let userv ← jGet pm2_env "username"
    let watchv ← jGet pm2_env "watching"
    let entry : Pm2Process :=
      { id := idv, name := namev, namespace_ := nsv, version := verv, mode := modev,
        pid := pidv, uptime := upv, restarts := restv, status := statusv, cpu := cpuv,
        memory_bytes := mem_bytes, user := userv, watching := watchv }
    let (others, total_rest) ← pm2Loop rest
    Except.ok (entry :: others, (mem_bytes.getD 0) + total_rest)

/-- Python `a or b` over the two extraction attempts (ssh.py line 309): the
    first result wins only when it is truthy, and an empty list is falsy. -/
def pyOrPayload (a b : Option (List JVal)) : Option (List JVal) :=
  match a with
  | some xs => if xs.isEmpty then b else some xs
  | Option.none => b

/-- Truthiness of an optional string (Python `if x:`): set and non-empty. -/
def optStrTruthy : Option String → Bool
  | some s => s != ""
  | Option.none => false

/-- `fetch_pm2_details` (ssh.py lines 292-355) from the seam where the chosen
    remote command has produced `result` (the `pm2_user`/`pm2_home`/
    `sudo_password` parameters only select which command ran and whether its
    output was redacted, so they are absorbed into `result`).  `extract`
    stands for `extract_json_array` (ssh.py lines 264-275), Python's own JSON
    scanner.  With no parseable array, a best-effort message is reported as
    the `Pm2Info.error`; otherwise each element is mapped, and an exception
    from the loop propagates. -/
def fetch_pm2_details (extract : String → Option (List JVal)) (result : SshResult) :
    Except String (Pm2Info × Option String) :=
  match pyOrPayload (extract result.stdout) (extract result.stderr) with
  | Option.none =>
    let msg0 := pyStrip (if result.stderr ≠ "" then result.stderr else result.stdout)
    let ec := result.exit_code
    let msg1 := if msg0 = "" ∧ result.exit_code ≠ 0 then s!"pm2 exit code {ec}" else msg0
    let message := if msg1 = "" then "pm2 returned no output" else msg1
    Except.ok ({ error := some message }, some message)
  | some procs => do
    let (details, total) ← pm2Loop procs
    Except.ok
      ({ total_memory_bytes := some total, processes := some details.length,
         details := some details, error := Option.none },
       Option.none)

/-- The remote outputs available to the pm2 block of one collection pass. -/
structure Pm2Env where
  extract : String → Option (List JVal)
  firstResult : SshResult
  fallbackResult : SshResult

/-- The pm2 block of `collect_stats` (ssh.py lines 452-464): one
    `fetch_pm2_details` call and, when it reported an error while the server
    has a password and a non-root login user, a single fallback call as the
    root run-as identity whose result replaces the first.  The counter is the
    number of `fetch_pm2_details` calls made (1 or 2). -/
def collect_stats_pm2 (env : Pm2Env) (server : Server) : Except String (Pm2Info × Nat) :=
  match fetch_pm2_details env.extract env.firstResult with
  | Except.error m => Except.error m
  | Except.ok first =>
    let pm2_info := first.1
    if optStrTruthy pm2_info.error && optStrTruthy server.password &&
        (server.user != "root") then
      match fetch_pm2_details env.extract env.fallbackResult with
      | Except.error m => Except.error m
      | Except.ok second => Except.ok (second.1, 2)
    else Except.ok (pm2_info, 1)

/-! ## The supervisor probe (src/app/infra/ssh.py lines 358-419) -/

/-- Regex `\S`: not Python whitespace. -/
def notWS (c : Char) : Bool := !isPySpace c

/-- The first optional group of SUPERVISOR_LINE (ssh.py lines 358-363):
    `\s+pid\s+(\d+),\s+uptime\s+(.+)` matched against the text after the state
    token, to the end of the line.  The greedy `(.+)` runs to the end; when
    everything after `uptime` is whitespace the engine backtracks so that the
    final whitespace character becomes the capture. -/
def matchPidGroup (rest : List Char) : Option (List Char × List Char) :=
  let w := rest.takeWhile isPySpace
  if w.isEmpty then Option.none
  else
    let a := rest.drop w.length
    if ("pid".toList).isPrefixOf a then
      let b := a.drop 3
      let w1 := b.takeWhile isPySpace
      if w1.isEmpty then Option.none
      else
        let c := b.drop w1.length
        let digits := c.takeWhile Char.isDigit
        if digits.isEmpty then Option.none
        else
          match c.drop digits.length with
          | [] => Option.none
          | e :: f =>
            if e == ',' then
              let w2 := f.takeWhile isPySpace
              if w2.isEmpty then Option.none
              else
                let g := f.drop w2.length
                if ("uptime".toList).isPrefixOf g then
                  let h := g.drop 6
                  let w3 := h.takeWhile isPySpace
                  if w3.isEmpty then Option.none
                  else
                    let tail := h.drop w3.length
                    if tail.isEmpty then
                      if 2 ≤ w3.length then some (digits, h.drop (w3.length - 1))
                      else Option.none
                    else some (digits, tail)
                else Option.none
            else Option.none
    else Option.none

/-- The second optional group of SUPERVISOR_LINE: `\s+-\s+(.+)` against the
    text after the state token (tried only when the pid group fails). -/
def matchMsgGroup (rest : List Char) : Option (List Char) :=
  let w := rest.takeWhile isPySpace
  if w.isEmpty then Option.none
  else
    match rest.drop w.length with
    | [] => Option.none
    | c :: after =>
      if c == '-' then
        let w2 := after.takeWhile isPySpace
        if w2.isEmpty then Option.none
        else
          let tail := after.drop w2.length
          if tail.isEmpty then
            if 2 ≤ w2.length then some (after.drop (w2.length - 1)) else Option.none
          else some tail
      else Option.none

/-- The captures of SUPERVISOR_LINE on one full line. -/
structure SupMatch where
  name : List Char
  state : List Char
  pid : Option (List Char)
  uptime : Option (List Char)
  message : Option (List Char)

/-- `SUPERVISOR_LINE.match(line)` (ssh.py lines 358-363, used at line 374):
    a non-whitespace name, whitespace, a non-whitespace state token, then
    either nothing, the `pid N, uptime T` group (in which the greedy capture
    swallows any would-be message), or the `- message` group. -/
def supervisorMatch (line : List Char) : Option SupMatch :=
  let name := line.takeWhile notWS
  if name.isEmpty then Option.none
  else
    let r0 := line.drop name.length
    let w0 := r0.takeWhile isPySpace
    if w0.isEmpty then Option.none
    else
      let r1 := r0.drop w0.length
      let state := r1.takeWhile notWS
      if state.isEmpty then Option.none
      else
        let rest := r1.drop state.length
        match matchPidGroup rest with
        | some (pid, uptime) =>
          some { name := name, state := state, pid := some pid,
                 uptime := some uptime, message := Option.none }
        | Option.none =>
          match matchMsgGroup rest with
          | some msg =>
            some { name := name, state := state, pid := Option.none,
                   uptime := Option.none, message := some msg }
          | Option.none =>
            if rest.isEmpty then
              some { name := name, state := state, pid := Option.none,
                     uptime := Option.none, message := Option.none }
            else Option.none

/-- `SupervisorProcess` (models.py lines 49-55). -/
structure SupervisorProcess where
  name : Option String := Option.none
  state : Option String := Option.none
  pid : Option ℤ := Option.none
  uptime : Option String := Option.none
  message : Option String := Option.none
  raw : Option String := Option.none
deriving DecidableEq

/-- `SupervisorInfo` (models.py lines 58-61). -/
structure SupervisorInfo where
  total : Option Nat := Option.none
  running : Option Nat := Option.none
  details : Option (List SupervisorProcess) := Option.none
deriving DecidableEq

/-- The loop of `parse_supervisor` (ssh.py lines 372-392): count every line,
    count `RUNNING` states, and build one record per line (raw-only when the
    pattern fails).  The captured pid is a digit run, so `pid.isdigit()` holds
    and `int(pid)` applies. -/
def parseSupLines : List String → Nat × Nat × List SupervisorProcess
  | [] => (0, 0, [])
  | line :: rest =>
    let next := parseSupLines rest
    match supervisorMatch line.toList with
    | some m =>
      let stateStr : String := ⟨m.state⟩
      (next.1 + 1, next.2.1 + (if stateStr = "RUNNING" then 1 else 0),
        { name := some (⟨m.name⟩ : String), state := some stateStr,
          pid := m.pid.map fun ds => ((natOfDigits ds : ℤ)),
          uptime := m.uptime.map fun cs => (⟨cs⟩ : String),
          message := m.message.map fun cs => (⟨cs⟩ : String),
          raw := some line } :: next.2.2)
    | Option.none =>
      (next.1 + 1, next.2.1, ({ raw := some line } : SupervisorProcess) :: next.2.2)

/-- `parse_supervisor` (ssh.py lines 366-393). -/
def parse_supervisor (lines : List String) : SupervisorInfo :=
  match lines with
  | [] => { total := Option.none, running := Option.none, details := Option.none }
  | _ =>
    let acc := parseSupLines lines
    { total := some acc.1, running := some acc.2.1, details := some acc.2.2 }

/-- The stripped non-empty stdout lines, as fetch_supervisor computes them
    (ssh.py lines 404 and 418). -/
def supStatusLines (stdout : String) : List String :=
  ((pySplitlinesCore stdout.toList []).filter fun l => !(pyStripL l).isEmpty).map
    fun l => (⟨pyStripL l⟩ : String)

/-- Python `str.lower` (ASCII case mapping; the markers compared against it
    are ASCII). -/
def pyLower (s : String) : String := ⟨s.toList.map Char.toLower⟩

/-- The lowered join of stdout lines and stripped stderr that fetch_supervisor
    scans for failure markers (ssh.py line 405). -/
def supJoined (first : SshResult) : String :=
  pyLower (String.intercalate "\n" (supStatusLines first.stdout ++ [pyStrip first.stderr]))

/-- The escalation condition of fetch_supervisor (ssh.py lines 406-410). -/
def supNeedsSudo (first : SshResult) (sudo_password : Option String) (ssh_user : String) : Bool :=
  (pyContains (supJoined first) "permission denied" || pyContains (supJoined first) "error:") &&
    optStrTruthy sudo_password && (ssh_user != "root")

/-- The remote outputs available to the supervisor probe: the plain status
    command's result and, if consulted, the escalated retry's result. -/
structure SupEnv where
  firstResult : SshResult
  sudoResult : SshResult

/-- `fetch_supervisor` (ssh.py lines 396-419); the second component counts
    escalation retries (0 or 1). -/
def fetch_supervisor (env : SupEnv) (sudo_password : Option String) (ssh_user : String) :
    SupervisorInfo × Nat :=
  if supNeedsSudo env.firstResult sudo_password ssh_user then
    (parse_supervisor (supStatusLines env.sudoResult.stdout), 1)
  else
    (parse_supervisor (supStatusLines env.firstResult.stdout), 0)

/-! ## format_bytes and the snapshot model (ssh.py lines 51-62, models.py) -/

/-- Round half to even, the rounding used when rendering sizes to two decimal
    places (Python formats the nearest binary float; the exact-rational model
    rounds the exact value — no claim depends on this rendering). -/
def roundHalfEven (q : ℚ) : ℤ :=
  let f := ⌊q⌋
  if q - f < 1 / 2 then f
  else if 1 / 2 < q - f then f + 1
  else if f % 2 = 0 then f else f + 1

/-- Two-decimal rendering `f"{x:.2f}"` for the non-negative sizes used here. -/
def formatQ2 (q : ℚ) : String :=
  let n := roundHalfEven (q * 100)
  let ip := n.ediv 100
  let fp := (n % 100).toNat
  let fps := if fp < 10 then "0" ++ toString fp else toString fp
  s!"{ip}.{fps}"

/-- The unit loop of `format_bytes` (ssh.py lines 54-62); since the unit names
    are distinct, `unit == units[-1]` is reaching the last list element. -/
def fbLoop (size : ℚ) : List String → String
  | [] => formatQ2 size ++ " PB"
  | u :: us =>
    if size < 1024 ∨ us = [] then
      if u = "B" then toString (pyTrunc size) ++ " " ++ u
      else formatQ2 size ++ " " ++ u
    else fbLoop (size / 1024) us

/-- `format_bytes` (ssh.py lines 51-62). -/
def format_bytes (value : Option ℤ) : String :=
  match value with
  | Option.none => "n/a"
  | some v => fbLoop ((v : ℚ)) ["B", "KB", "MB", "GB", "TB", "PB"]

/-- `MemoryInfo` (models.py lines 6-10). -/
structure MemoryInfo where
  total_bytes : Option ℤ := Option.none
  used_bytes : Option ℤ := Option.none
  total_human : String
  used_human : String
deriving DecidableEq

/-- `UptimeInfo` (models.py lines 13-15). -/
structure UptimeInfo where
  seconds : Option ℚ := Option.none
  human : String
deriving DecidableEq

/-- `DiskInfo` (models.py lines 18-23). -/
structure DiskInfo where
  mount : String := "/"
  total_bytes : Option ℤ := Option.none
  used_bytes : Option ℤ := Option.none
  total_human : String
  used_human : String
deriving DecidableEq

/-- `HostStats` (src/app/stats/models.py lines 64-76).  The class declares
    *no* `cpu` field, and models.py defines no `CpuInfo` class, although
    ssh.py line 17 imports `CpuInfo` from it and passes `cpu=` when building
    snapshots (see claim C1). -/
structure HostStats where
  server_id : String
  server_name : Option String := Option.none
  host : String
  user : String
  port : Nat
  tags : List String
  error : Option String := Option.none
  memory : MemoryInfo
  uptime : UptimeInfo
  disk : DiskInfo
  pm2 : Pm2Info
  supervisor : SupervisorInfo

/-- `build_error_stats` (ssh.py lines 429-444): the fully degraded snapshot.
    The `cpu=CpuInfo(usage_human="n/a")` keyword argument names the undefined
    `CpuInfo` class and a field `HostStats` does not declare (claim C1); the
    fields the model declares are filled as written: null numerics, `"n/a"`
    human strings, the message as both the top-level and the pm2 error, an
    empty `SupervisorInfo`. -/
def build_error_stats (server : Server) (message : String) : HostStats :=
  { server_id := server.id
    server_name := server.name
    host := server.host
    user := server.user
    port := server.port
    tags := server.tags
    error := some message
    memory := { total_human := "n/a", used_human := "n/a" }
    uptime := { human := "n/a" }
    disk := { total_human := "n/a", used_human := "n/a" }
    pm2 := { error := some message }
    supervisor := {} }

/-- The sub-probe results for one collection pass.  `fetch_cpu`,
    `fetch_memory`, `fetch_uptime` and `fetch_disk` (ssh.py lines 182-261)
    parse their own command output, catch their own parse errors and return
    null fields without raising, so they are modelled at their result seam;
    the pm2 and supervisor probes, whose control flow the claims examine, are
    modelled in full from their own seams. -/
structure ProbeEnv where
  cpu_cores : Option ℤ
  cpu_usage : Option ℚ
  mem_total : Option ℤ
  mem_used : Option ℤ
  uptime_seconds : Option ℚ
  disk_total : Option ℤ
  disk_used : Option ℤ
  pm2 : Pm2Env
  sup : SupEnv

/-- `collect_stats` (ssh.py lines 447-500).  The pm2 block runs before the
    supervisor probe; an exception escaping it propagates and aborts the whole
    pass.  The `cpu=CpuInfo(...)` keyword argument names a class models.py
    does not define and a field `HostStats` does not declare (claim C1), so
    the construction here carries the declared fields; `env.cpu_cores` and
    `env.cpu_usage` are what `fetch_cpu` returned. -/
def collect_stats (env : ProbeEnv) (server : Server) : Except String HostStats := do
  let pm2res ← collect_stats_pm2 env.pm2 server
  let pm2_info := pm2res.1
  let supRes := fetch_supervisor env.sup
    (if server.user ≠ "root" then server.password else Option.none) server.user
  Except.ok
    { server_id := server.id
      server_name := server.name
      host := server.host
      user := server.user
      port := server.port
      tags := server.tags
      error := Option.none
      memory :=
        { total_bytes := env.mem_total
          used_bytes := env.mem_used
          total_human := format_bytes env.mem_total
          used_human := format_bytes env.mem_used }
      uptime :=
        { seconds := env.uptime_seconds
          human := format_seconds env.uptime_seconds }
      disk :=
        { mount := "/"
          total_bytes := env.disk_total
          used_bytes := env.disk_used
          total_human := format_bytes env.disk_total
          used_human := format_bytes env.disk_used }
      pm2 := pm2_info
      supervisor := supRes.1 }

/-! ## Names in the stats model and its importer (claim C1) -/

/-- The classes src/app/stats/models.py defines at top level. -/
def statsModelsClassNames : List String :=
  ["MemoryInfo", "UptimeInfo", "DiskInfo", "Pm2Process", "Pm2Info",
   "SupervisorProcess", "SupervisorInfo", "HostStats", "StatsResponse"]

/-- The names src/app/infra/ssh.py imports from app.stats.models
    (lines 16-26). -/
def sshStatsModelImports : List String :=
  ["CpuInfo", "DiskInfo", "HostStats", "MemoryInfo", "Pm2Info", "Pm2Process",
   "SupervisorInfo", "SupervisorProcess", "UptimeInfo"]

/-- The fields the `HostStats` class declares (models.py lines 64-76). -/
def hostStatsFieldNames : List String :=
  ["server_id", "server_name", "host", "user", "port", "tags", "error",
   "memory", "uptime", "disk", "pm2", "supervisor"]

/-- The keyword arguments `build_error_stats` passes to `HostStats`
    (ssh.py lines 429-444). -/
def buildErrorStatsKwargs : List String :=
  ["server_id", "server_name", "host", "user", "port", "tags", "error",
   "cpu", "memory", "uptime", "disk", "pm2", "supervisor"]

/-- The keyword arguments `collect_stats` passes to `HostStats`
    (ssh.py lines 471-500). -/
def collectStatsKwargs : List String :=
  ["server_id", "server_name", "host", "user", "port", "tags", "error",
   "cpu", "memory", "uptime", "disk", "pm2", "supervisor"]

/-! ## The session pool (src/app/infra/ssh_pool.py) -/

/-- A pool entry, `_Entry` (ssh_pool.py lines 14-18): the cached session
    handle (handles are numbered; `None` when closed) and the last error.
    The per-entry lock serialises access and is not modelled (execution here
    is sequential). -/
structure PoolEntry where
  client : Option Nat := Option.none
  last_error : Option String := Option.none
deriving DecidableEq

/-- The connection environment of the pool: which session handles have an
    active transport (`transport.is_active()`), and the outcome of the k-th
    `_connect` call — a fresh handle, or the exception message it raised. -/
structure PoolEnv where
  isActive : Nat → Bool
  connect : Nat → Except String Nat

/-- `SSHClientPool._ensure_connected_locked` (ssh_pool.py lines 102-111):
    reuse the cached client while its transport reports active; otherwise
    close and null any stale handle, run `_connect` (which may raise), and on
    success cache the fresh client and clear `last_error`.  Returns the
    result, the updated entry, the next attempt counter, and the number of
    connection attempts made (0 on reuse, 1 otherwise). -/
def ensure_connected_locked (env : PoolEnv) (entry : PoolEntry) (k : Nat) :
    Except String Nat × PoolEntry × Nat × Nat :=
  match entry.client with
  | some c =>
    if env.isActive c then (Except.ok c, entry, k, 0)
    else
      match env.connect k with
      | Except.ok h =>
        (Except.ok h, { client := some h, last_error := Option.none }, k + 1, 1)
      | Except.error m =>
        (Except.error m, { entry with client := Option.none }, k + 1, 1)
  | Option.none =>
    match env.connect k with
    | Except.ok h =>
      (Except.ok h, { client := some h, last_error := Option.none }, k + 1, 1)
    | Except.error m => (Except.error m, entry, k + 1, 1)

/-- The parameter list of `collect_stats` (ssh.py line 447). -/
def collectStatsParams : List String := ["client", "server"]

/-- The keyword arguments `SSHClientPool.collect` passes to `collect_stats`
    beyond the positional client and server (ssh_pool.py line 86). -/
def collectCallKwargs : List String := ["detail"]

/-- The message of the `TypeError` Python raises for the call at ssh_pool.py
    line 86, because `collect_stats` (ssh.py line 447) accepts no `detail`
    parameter. -/
def collectStatsTypeError : String :=
  "collect_stats() got an unexpected keyword argument 'detail'"

/-- `SSHClientPool.collect` (ssh_pool.py lines 81-92), parameterised by the
    outcome `runStats` of the `collect_stats(client, server, detail=detail)`
    call on the obtained client (for the code as written that call always
    raises the `TypeError`, see `pool_collect_as_written`).  On any exception
    from the `try` block the handler records the message in `last_error`,
    closes and nulls the cached client, and returns the degraded error
    snapshot.  Returns the snapshot, the updated entry, the next attempt
    counter, and the number of connection attempts this call made. -/
def pool_collect (env : PoolEnv) (runStats : Nat → Except String HostStats)
    (server : Server) (entry : PoolEntry) (k : Nat) :
    HostStats × PoolEntry × Nat × Nat :=
  match ensure_connected_locked env entry k with
  | (Except.ok c, e1, k1, n) =>
    match runStats c with
    | Except.ok hs => (hs, e1, k1, n)
    | Except.error m =>
      (build_error_stats server m,
       { client := Option.none, last_error := some m }, k1, n)
  | (Except.error m, e1, k1, n) =>
    (build_error_stats server m,
     { e1 with client := Option.none, last_error := some m }, k1, n)

/-- `SSHClientPool.collect` exactly as the source stands: the stats call
    always raises the `TypeError` for its unexpected `detail` keyword. -/
def pool_collect_as_written (env : PoolEnv) (server : Server) (entry : PoolEntry) (k : Nat) :
    HostStats × PoolEntry × Nat × Nat :=
  pool_collect env (fun _ => Except.error collectStatsTypeError) server entry k

/-! ### Claim C2 -/

/-- The pool environment for the C2 run: every handle's transport is active,
    connecting always succeeds with a fresh handle. -/
def c2Env : PoolEnv := { isActive := fun _ => true, connect := fun k => Except.ok (100 + k) }

/-- The server of the C2 run. -/
def c2Server : Server :=
  { id := "s1", host := "h", port := 22, user := "root", enabled := true }

/-- The entry before the first `collect` call: a cached, active session 7. -/
def c2Entry : PoolEntry := { client := some 7 }

/-- The pool environment of the C3 witness: connecting always fails. -/
def c3Env : PoolEnv :=
  { isActive := fun _ => false, connect := fun _ => Except.error "boom" }

/-- The server of the C3 witness. -/
def c3Server : Server :=
  { id := "s3", host := "h3", port := 22, user := "root", enabled := true }

/-! ### Claim C4 -/

/-- What `extract_json_array` (ssh.py lines 264-275) yields on the output
    `"[1]"`: Python's `json.JSONDecoder().raw_decode` at index 0 decodes the
    array `[1]`, whose single element is a number, not an object. -/
def c4Extract : String → Option (List JVal) :=
  fun s => if s = "[1]" then some [JVal.int 1] else Option.none

/-- The message of the `AttributeError` raised at ssh.py line 332 when a pm2
    array element is an int. -/
def c4AttrError : String := "AttributeError: 'int' object has no attribute 'get'"

/-- The pm2 outputs of the C4 run: `pm2 jlist` printed `"[1]"`. -/
def c4Pm2Env : Pm2Env :=
  { extract := c4Extract,
    firstResult := { stdout := "[1]", stderr := "", exit_code := 0 },
    fallbackResult := { stdout := "", stderr := "", exit_code := 0 } }

/-- The supervisor outputs of the C4 run (never reached). -/
def c4SupEnv : SupEnv :=
  { firstResult := { stdout := "", stderr := "", exit_code := 0 },
    sudoResult := { stdout := "", stderr := "", exit_code := 0 } }

/-- The probe environment of the C4 run. -/
def c4ProbeEnv : ProbeEnv :=
  { cpu_cores := Option.none, cpu_usage := Option.none, mem_total := Option.none,
    mem_used := Option.none, uptime_seconds := Option.none, disk_total := Option.none,
    disk_used := Option.none, pm2 := c4Pm2Env, sup := c4SupEnv }

/-- The server of the C4 run. -/
def c4Server : Server :=
  { id := "s4", host := "h4", port := 22, user := "root", enabled := true }

/-- The supervisor outputs of the C6 witness: the plain probe printed a
    permission-denied line, the escalated retry printed one RUNNING process. -/
def c6SupFirst : SshResult :=
  { stdout := "supervisorctl: Permission denied", stderr := "", exit_code := 1 }

/-- The escalated retry's output in the C6 witness. -/
def c6SupSudo : SshResult :=
  { stdout := "web RUNNING pid 5, uptime 0:01:02", stderr := "", exit_code := 0 }

/-- The supervisor outputs of the C6 witness. -/
def c6SupEnv : SupEnv := { firstResult := c6SupFirst, sudoResult := c6SupSudo }

/-- The pm2 outputs of the C6 witness: the first attempt printed a
    permission-denied message and no JSON array. -/
def c6Pm2Env : Pm2Env :=
  { extract := fun _ => Option.none,
    firstResult := { stdout := "", stderr := "permission denied", exit_code := 1 },
    fallbackResult := { stdout := "", stderr := "", exit_code := 0 } }

/-- The password-less non-root server of the C6 witness. -/
def c6ServerNoPw : Server :=
  { id := "s6", host := "h6", port := 22, user := "ubuntu", enabled := true }

/-! ## Theorems -/

example : redact_output "a\nsecret\nb secret c\n" (some "secret") = "a\nb [redacted] c\n" := by decide
example : redact_output "a\r\nb" (some "x") = "a\nb" := by decide
example : redact_output " p" (some "p") = "" := by decide
example : redact_output "a\n\nsecret" (some "secret") = "a\n" := by decide

/-! ### Lemmas about the string primitives -/

theorem splitCore_ne_nil (cs acc : List Char) : cs ≠ [] → pySplitlinesCore cs acc ≠ [] := by
  induction cs, acc using pySplitlinesCore.induct with
  | case1 acc h => intro hne; exact absurd rfl hne
  | case2 acc h => intro hne; exact absurd rfl hne
  | case3 c acc hb => intro _; simp [pySplitlinesCore, hb]
  | case4 c acc hb => intro _; simp [pySplitlinesCore, hb]
  | case5 c d rest acc h ih => intro _; simp [pySplitlinesCore, h]
  | case6 c d rest acc h hb ih => intro _; simp [pySplitlinesCore, h, hb]
  | case7 c d rest acc h hb ih => intro _; simp [pySplitlinesCore, h, hb]; exact ih (by simp)

theorem containsSubL_infix_iff (needle hay : List Char) :
    containsSubL needle hay = true ↔ needle <:+: hay := by
  induction hay with
  | nil => simp [containsSubL, List.isEmpty_iff]
  | cons c rest ih =>
    simp [containsSubL, List.isPrefixOf_iff_prefix, ih, List.infix_cons_iff]

theorem pyStripL_infix_self (l : List Char) : pyStripL l <:+: l := by
  have h1 : l.dropWhile isPySpace <:+ l := List.dropWhile_suffix _
  have h2 : pyStripL l <+: l.dropWhile isPySpace := by
    rw [pyStripL]
    conv_rhs => rw [← List.reverse_reverse (l.dropWhile isPySpace)]
    exact List.reverse_prefix.2 (List.dropWhile_suffix _)
  exact h2.isInfix.trans h1.isInfix

theorem splitCore_infix_text (cs acc : List Char) :
    ∀ l ∈ pySplitlinesCore cs acc, l <:+: acc.reverse ++ cs := by
  induction cs, acc using pySplitlinesCore.induct with
  | case1 acc h => simp [pySplitlinesCore, h]
  | case2 acc h =>
    intro l hl
    simp [pySplitlinesCore, h] at hl
    subst hl
    simp
  | case3 c acc hb =>
    intro l hl
    simp [pySplitlinesCore, hb] at hl
    subst hl
    exact (List.prefix_append acc.reverse [c]).isInfix
  | case4 c acc hb =>
    intro l hl
    simp [pySplitlinesCore, hb] at hl
    subst hl
    simp [List.reverse_cons]
  | case5 c d rest acc h ih =>
    intro l hl
    simp [pySplitlinesCore, h] at hl
    rcases hl with rfl | hl
    · exact (List.prefix_append _ _).isInfix
    · have hrec := ih l (by simpa using hl)
      have hs : rest <:+ acc.reverse ++ c :: d :: rest := ⟨acc.reverse ++ [c, d], by simp⟩
      exact (by simpa using hrec : l <:+: rest).trans hs.isInfix
  | case6 c d rest acc h hb ih =>
    intro l hl
    simp [pySplitlinesCore, h, hb] at hl
    rcases hl with rfl | hl
    · exact (List.prefix_append _ _).isInfix
    · have hrec := ih l (by simpa using hl)
      have hs : d :: rest <:+ acc.reverse ++ c :: d :: rest := ⟨acc.reverse ++ [c], by simp⟩
      exact (by simpa using hrec : l <:+: d :: rest).trans hs.isInfix
  | case7 c d rest acc h hb ih =>
    intro l hl
    simp [pySplitlinesCore, h, hb] at hl
    have hrec := ih l hl
    simpa [List.reverse_cons, List.append_assoc] using hrec

theorem joinNLL_cons (l : List Char) (ls : List (List Char)) (h : ls ≠ []) :
    joinNLL (l :: ls) = l ++ '\n' :: joinNLL ls := by
  cases ls with
  | nil => exact absurd rfl h
  | cons x xs => rfl

theorem endsNLL_cons (c : Char) (cs : List Char) (h : cs ≠ []) :
    endsNLL (c :: cs) = endsNLL cs := by
  cases cs with
  | nil => exact absurd rfl h
  | cons x xs => rfl

theorem onlyLFL_tail (c : Char) (cs : List Char) (h : onlyLFL (c :: cs) = true) :
    onlyLFL cs = true := by
  rw [onlyLFL, List.all_cons, Bool.and_eq_true] at h
  exact h.2

theorem newline_isLineBoundary (c : Char) (h : isLineBoundary c = false) : (c == '\n') = false := by
  by_contra hc
  have : c = '\n' := by
    cases hcc : c == '\n'
    · exact absurd hcc hc
    · exact beq_iff_eq.1 hcc
  subst this
  simp [isLineBoundary] at h

theorem splitCore_roundtrip (cs acc : List Char) (h : onlyLFL cs = true) :
    joinNLL (pySplitlinesCore cs acc) ++ (if endsNLL cs then ['\n'] else []) =
      acc.reverse ++ cs := by
  induction cs, acc using pySplitlinesCore.induct with
  | case1 acc hacc =>
    simp [pySplitlinesCore, hacc, joinNLL, endsNLL, List.isEmpty_iff.1 hacc]
  | case2 acc hacc => simp [pySplitlinesCore, hacc, joinNLL, endsNLL]
  | case3 c acc hb =>
    have hc : c = '\n' := by
      simp [onlyLFL, hb] at h
      exact h
    subst hc
    simp [pySplitlinesCore, joinNLL, endsNLL, isLineBoundary]
  | case4 c acc hb =>
    have hc := newline_isLineBoundary c (by simpa using hb)
    simp [pySplitlinesCore, hb, joinNLL, endsNLL, hc, List.reverse_cons]
  | case5 c d rest acc hcd ih =>
    exfalso
    have hc : c = '\r' := beq_iff_eq.1 (Bool.and_elim_left hcd)
    subst hc
    simp [onlyLFL, isLineBoundary] at h
  | case6 c d rest acc hcd hb ih =>
    have hc : c = '\n' := by
      simp [onlyLFL, hb] at h
      exact h.1
    subst hc
    have htail : onlyLFL (d :: rest) = true := onlyLFL_tail _ _ h
    have hne := splitCore_ne_nil (d :: rest) [] (by simp)
    rw [pySplitlinesCore]
    simp only [hcd, hb, if_true, if_false, Bool.false_eq_true]
    rw [joinNLL_cons _ _ hne, endsNLL_cons _ _ (by simp)]
    have := ih htail
    simp only [List.reverse_nil, List.nil_append] at this
    simp [List.append_assoc, this]
  | case7 c d rest acc hcd hb ih =>
    have htail : onlyLFL (d :: rest) = true := onlyLFL_tail _ _ h
    rw [pySplitlinesCore]
    simp only [hcd, hb, if_false, Bool.false_eq_true]
    rw [endsNLL_cons _ _ (by simp)]
    have := ih htail
    simpa [List.reverse_cons, List.append_assoc] using this

theorem replaceFuel_of_not_contains (old new : List Char) :
    ∀ (fuel : Nat) (cs : List Char), containsSubL old cs = false →
      replaceFuel old new fuel cs = cs := by
  intro fuel
  induction fuel with
  | zero => intro cs _; rfl
  | succ fuel ih =>
    intro cs hc
    cases cs with
    | nil => rfl
    | cons c rest =>
      rw [containsSubL] at hc
      have h1 : old.isPrefixOf (c :: rest) = false := by
        cases hp : old.isPrefixOf (c :: rest)
        · rfl
        · rw [hp] at hc; simp at hc
      have h2 : containsSubL old rest = false := by
        cases hp : containsSubL old rest
        · rfl
        · rw [hp] at hc; simp at hc
      simp [replaceFuel, h1, ih rest h2]

theorem redactLoop_eq (sec : List Char) (ls : List (List Char)) :
    redactLoop sec ls =
      (ls.filter fun l => pyStripL l ≠ sec).map
        (fun l => replaceFuel sec "[redacted]".toList (l.length + 1) l) := by
  induction ls with
  | nil => rfl
  | cons l ls ih =>
    by_cases hl : pyStripL l = sec <;>
      simp [redactLoop, List.filter_cons, hl, ih]

theorem filter_all_true (ls : List (List Char)) (p : List Char → Bool)
    (h : ∀ l ∈ ls, p l = true) : ls.filter p = ls := by
  induction ls with
  | nil => rfl
  | cons l ls ih =>
    have h1 : p l = true := h l (List.mem_cons_self l ls)
    have h2 := ih fun x hx => h x (List.mem_cons_of_mem l hx)
    simp [List.filter_cons, h1, h2]

theorem map_all_id (ls : List (List Char)) (f : List Char → List Char)
    (h : ∀ l ∈ ls, f l = l) : ls.map f = ls := by
  induction ls with
  | nil => rfl
  | cons l ls ih =>
    have h1 : f l = l := h l (List.mem_cons_self l ls)
    have h2 := ih fun x hx => h x (List.mem_cons_of_mem l hx)
    simp [h1, h2]

theorem string_mk_toList (s : String) : (⟨s.toList⟩ : String) = s := rfl

/-! ### Claim C7 -/

/-- C7 counterexample: the claim fails as stated.  (i) `"a\r\nb"` does not
    contain the secret `"x"` but is not returned unchanged (the `"\r\n"` break
    is normalised to `"\n"`); (ii) the line `" p"` does not equal the secret
    `"p"` yet it is dropped entirely rather than kept with the inline
    occurrence replaced; (iii) for `"a\n\nsecret"` (no trailing newline) the
    output `"a\n"` ends with a newline, so a trailing newline is not preserved
    "exactly when" the input ends with one. -/
theorem c7_redact_claim_counterexample :
    (pyContains "a\r\nb" "x" = false ∧ redact_output "a\r\nb" (some "x") ≠ "a\r\nb") ∧
    (redact_output " p" (some "p") ≠ redactClaimed " p" "p") ∧
    (pyEndsWithNL (redact_output "a\n\nsecret" (some "secret")) = true ∧
      pyEndsWithNL "a\n\nsecret" = false) := by
  decide

/-- C7 (amended): for every text and non-empty secret, `redact_output` drops
    each line that equals the secret after stripping surrounding whitespace,
    replaces inline occurrences of the secret in the kept lines with
    `"[redacted]"`, joins the kept lines with `"\n"` and appends a final
    `"\n"` exactly when the input ends with `"\n"`; text whose line breaks are
    all `"\n"` and which does not contain the secret is returned unchanged. -/
theorem c7_redact_amended (text sec : String) (hsec : sec ≠ "") :
    redact_output text (some sec) = redactAmended text sec ∧
    (onlyLF text = true → pyContains text sec = false →
      redact_output text (some sec) = text) := by
  constructor
  · by_cases ht : text = ""
    · subst ht; rfl
    · have hcond : ¬(text = "" ∨ sec = "") := by simp [ht, hsec]
      simp only [redact_output, redactAmended, if_neg hcond]
      rw [redactLoop_eq]
  · intro hlf hnc
    by_cases ht : text = ""
    · subst ht; rfl
    · have hcond : ¬(text = "" ∨ sec = "") := by simp [ht, hsec]
      have hinf : ∀ l ∈ pySplitlinesCore text.toList [], l <:+: text.toList := by
        intro l hl
        simpa using splitCore_infix_text text.toList [] l hl
      have hnotext : ¬ sec.toList <:+: text.toList := by
        intro hin
        have := (containsSubL_infix_iff sec.toList text.toList).2 hin
        rw [pyContains] at hnc
        rw [hnc] at this
        exact Bool.false_ne_true this
      have hnotc : ∀ l ∈ pySplitlinesCore text.toList [], containsSubL sec.toList l = false := by
        intro l hl
        cases hcl : containsSubL sec.toList l
        · rfl
        · exact absurd (((containsSubL_infix_iff _ _).1 hcl).trans (hinf l hl)) hnotext
      have hkeep : ∀ l ∈ pySplitlinesCore text.toList [], pyStripL l ≠ sec.toList := by
        intro l hl heq
        exact absurd ((heq ▸ pyStripL_infix_self l).trans (hinf l hl)) hnotext
      have hloop : redactLoop sec.toList (pySplitlinesCore text.toList []) =
          pySplitlinesCore text.toList [] := by
        rw [redactLoop_eq]
        rw [filter_all_true _ _ fun l hl => by simpa using hkeep l hl]
        exact map_all_id _ _ fun l hl => replaceFuel_of_not_contains _ _ _ _ (hnotc l hl)
      have hrt := splitCore_roundtrip text.toList [] hlf
      simp only [List.reverse_nil, List.nil_append] at hrt
      simp only [redact_output, if_neg hcond]
      rw [hloop]
      by_cases he : pyEndsWithNL text
      · rw [if_pos he]
        rw [pyEndsWithNL] at he
        rw [he, if_pos rfl] at hrt
        calc (⟨joinNLL (pySplitlinesCore text.toList []) ++ ['\n']⟩ : String)
            = ⟨text.toList⟩ := by rw [hrt]
          _ = text := string_mk_toList text
      · rw [if_neg he]
        rw [pyEndsWithNL] at he
        rw [Bool.not_eq_true] at he
        rw [he] at hrt
        simp only [if_neg (by simp : ¬(false = true)), List.append_nil] at hrt
        calc (⟨joinNLL (pySplitlinesCore text.toList [])⟩ : String)
            = ⟨text.toList⟩ := by rw [hrt]
          _ = text := string_mk_toList text

/-- C7 witness: the amended theorem applied at concrete inputs, discharging
    the non-empty-secret, LF-only and no-occurrence hypotheses. -/
theorem c7_redact_amended_witness :
    redact_output "a\nsecret inline x\n" (some "secret") =
      redactAmended "a\nsecret inline x\n" "secret" ∧
    redact_output "plain\ntext" (some "zzz") = "plain\ntext" :=
  ⟨(c7_redact_amended "a\nsecret inline x\n" "secret" (by decide)).1,
   (c7_redact_amended "plain\ntext" "zzz" (by decide)).2 (by decide) (by decide)⟩

/-! ### Claim C9 -/

/-- C9 counterexample: at 90061 seconds (1 day, 1 hour, 1 minute, 1 second)
    the code prints the three units `"1d 1h 1m"`, not the largest applicable
    unit pair `"1d 1h"` that the claim describes. -/
theorem c9_days_branch_counterexample :
    format_seconds (some 90061) = "1d 1h 1m" ∧
    format_seconds_pairs (some 90061) = "1d 1h" ∧
    format_seconds (some 90061) ≠ format_seconds_pairs (some 90061) := by
  refine ⟨by decide, by decide, by decide⟩

/-- C9 (amended): `format_seconds` returns `"n/a"` for null input, and for a
    non-null duration prefers the largest applicable unit group — the triple
    `d h m` for at least one day, then the pairs `h m` and `m s`, else `s`
    alone — with each component reduced modulo the next larger unit. -/
theorem c9_format_seconds_amended :
    (∀ q : ℚ, format_seconds (some q) = format_seconds_amended q) ∧
    format_seconds none = "n/a" := by
  constructor
  · intro q
    have h36 : ((pyTrunc q) % 86400) % 3600 = (pyTrunc q) % 3600 :=
      Int.emod_emod_of_dvd _ (by norm_num)
    have h60 : ((pyTrunc q) % 3600) % 60 = (pyTrunc q) % 60 :=
      Int.emod_emod_of_dvd _ (by norm_num)
    simp only [format_seconds, format_seconds_amended, h36, h60]
  · rfl

/-! ### Claim C5 -/

/-- C5: the code marks a server due on a detail *downgrade*.  With a single
    summary subscriber at a 3 s interval and a cache entry holding full detail
    fetched 1 s ago, `_tick` computes due (`cache.detail != detail`) although
    the claim says a downgrade must not make the server due. -/
theorem c5_downgrade_marks_due :
    tickDue 1 [⟨3, "summary"⟩] (some ⟨"", 0, "full"⟩) = true ∧
    claimDue 1 [⟨3, "summary"⟩] (some ⟨"", 0, "full"⟩) = false ∧
    tickDetail [⟨3, "summary"⟩] = "summary" ∧
    tickInterval [⟨3, "summary"⟩] = 3 := by
  have hdet : tickDetail [⟨3, "summary"⟩] = "summary" := by decide
  have hint : tickInterval [⟨3, "summary"⟩] = 3 := by simp [tickInterval]
  refine ⟨?_, ?_, hdet, hint⟩
  · simp only [tickDue, hint, hdet]
    rw [show decide (("full" : String) ≠ "summary") = true from by decide, Bool.or_true]
  · simp only [claimDue, hint, hdet]
    rw [show (("summary" : String) == "full") = false from by decide, Bool.false_and,
      Bool.or_false]
    exact decide_eq_false (by norm_num)

/-! ### Claim C8 -/

/-- C8 counterexample: the JSON boolean `true` is not numeric, yet
    `_normalize_interval` clamps it like the number 1 ms and returns 3 s, not
    the 10 s default the claim assigns to every non-numeric input. -/
theorem c8_bool_interval_counterexample :
    isJsonNumber (PyVal.bool true) = false ∧
    normalize_interval (PyVal.bool true) = 3 ∧
    normalize_interval (PyVal.bool true) ≠ 10 := by
  refine ⟨rfl, ?_, ?_⟩
  · show max 3 (min 60 ((1 : ℚ) / 1000)) = 3
    rw [min_eq_right (by norm_num), max_eq_left (by norm_num)]
  · show max 3 (min 60 ((1 : ℚ) / 1000)) ≠ 10
    rw [min_eq_right (by norm_num), max_eq_left (by norm_num)]
    norm_num

/-- Clamping to the configured range always lands inside it. -/
theorem clamp_interval_range (x : ℚ) : 3 ≤ max 3 (min 60 x) ∧ max 3 (min 60 x) ≤ 60 :=
  ⟨le_max_left _ _, max_le (by norm_num) (min_le_left _ _)⟩

/-- C8 (amended): a JSON number is converted from milliseconds to seconds and
    clamped to [3, 60]; a boolean, being an `int` in the implementation
    language, is clamped like the value 0 or 1 ms and so yields 3 s; every
    other non-numeric input yields the 10 s default; the result always lies in
    [3, 60]. -/
theorem c8_interval_amended (v : PyVal) :
    (∀ q, jsonNumberVal v = some q → normalize_interval v = max 3 (min 60 (q / 1000))) ∧
    (∀ b, v = PyVal.bool b → normalize_interval v = 3) ∧
    (jsonNumberVal v = Option.none → (∀ b, v ≠ PyVal.bool b) → normalize_interval v = 10) ∧
    3 ≤ normalize_interval v ∧ normalize_interval v ≤ 60 := by
  have hb : ∀ b : Bool, normalize_interval (PyVal.bool b) = 3 := by
    intro b
    cases b
    · show max 3 (min 60 ((0 : ℚ) / 1000)) = 3
      rw [min_eq_right (by norm_num), max_eq_left (by norm_num)]
    · show max 3 (min 60 ((1 : ℚ) / 1000)) = 3
      rw [min_eq_right (by norm_num), max_eq_left (by norm_num)]
  cases v with
  | bool b =>
    refine ⟨?_, ?_, ?_, ?_⟩
    · intro q hq; exact absurd hq (by simp [jsonNumberVal])
    · intro b2 hb2; cases hb2; exact hb b
    · intro _ hne; exact absurd rfl (hne b)
    · rw [hb b]; norm_num
  | int n =>
    refine ⟨?_, ?_, ?_, ?_⟩
    · intro q hq
      rw [jsonNumberVal] at hq
      cases hq
      rfl
    · intro b2 hb2; cases hb2
    · intro hq; exact absurd hq (by simp [jsonNumberVal])
    · exact clamp_interval_range _
  | float q0 =>
    refine ⟨?_, ?_, ?_, ?_⟩
    · intro q hq
      rw [jsonNumberVal] at hq
      cases hq
      rfl
    · intro b2 hb2; cases hb2
    · intro hq; exact absurd hq (by simp [jsonNumberVal])
    · exact clamp_interval_range _
  | none =>
    refine ⟨?_, ?_, ?_, ?_, ?_⟩
    · intro q hq; simp [jsonNumberVal] at hq
    · intro b hb2; cases hb2
    · intro _ _; rfl
    · norm_num [normalize_interval]
    · norm_num [normalize_interval]
  | str s =>
    refine ⟨?_, ?_, ?_, ?_, ?_⟩
    · intro q hq; simp [jsonNumberVal] at hq
    · intro b hb2; cases hb2
    · intro _ _; rfl
    · norm_num [normalize_interval]
    · norm_num [normalize_interval]
  | list =>
    refine ⟨?_, ?_, ?_, ?_, ?_⟩
    · intro q hq; simp [jsonNumberVal] at hq
    · intro b hb2; cases hb2
    · intro _ _; rfl
    · norm_num [normalize_interval]
    · norm_num [normalize_interval]
  | dict =>
    refine ⟨?_, ?_, ?_, ?_, ?_⟩
    · intro q hq; simp [jsonNumberVal] at hq
    · intro b hb2; cases hb2
    · intro _ _; rfl
    · norm_num [normalize_interval]
    · norm_num [normalize_interval]

/-- C8 witness: the amended theorem applied at a number, a boolean and a
    string, discharging each hypothesis concretely. -/
theorem c8_interval_amended_witness :
    normalize_interval (PyVal.int 7000) = max 3 (min 60 ((((7000 : ℤ)) : ℚ) / 1000)) ∧
    normalize_interval (PyVal.bool true) = 3 ∧
    normalize_interval (PyVal.str "x") = 10 :=
  ⟨(c8_interval_amended (PyVal.int 7000)).1 _ rfl,
   (c8_interval_amended (PyVal.bool true)).2.1 true rfl,
   (c8_interval_amended (PyVal.str "x")).2.2.1 rfl fun b h => by cases h⟩

/-! ### Claim C10 -/

/-- C10: `ServerRepository.add` raises the `ValueError` exactly when some
    existing entry shares the (host, port, user) triple; in that case the
    persisted list is unchanged, otherwise the new server is appended at the
    end and returned. -/
theorem c10_add_unique_triple (persisted : List Server) (server : Server) :
    ((ServerRepository_add persisted server).2 =
        Except.error "Server already exists for host/port/user" ↔
      ∃ e ∈ persisted, e.host = server.host ∧ e.port = server.port ∧
        e.user = server.user) ∧
    ((∃ e ∈ persisted, e.host = server.host ∧ e.port = server.port ∧
        e.user = server.user) →
      (ServerRepository_add persisted server).1 = persisted) ∧
    ((¬ ∃ e ∈ persisted, e.host = server.host ∧ e.port = server.port ∧
        e.user = server.user) →
      (ServerRepository_add persisted server).1 = persisted ++ [server] ∧
      (ServerRepository_add persisted server).2 = Except.ok server) := by
  have hany : (persisted.any fun existing =>
      existing.host == server.host && existing.port == server.port &&
        existing.user == server.user) = true ↔
      ∃ e ∈ persisted, e.host = server.host ∧ e.port = server.port ∧
        e.user = server.user := by
    simp [List.any_eq_true, and_assoc]
  by_cases hd : ∃ e ∈ persisted, e.host = server.host ∧ e.port = server.port ∧
      e.user = server.user
  · have ha := hany.2 hd
    refine ⟨?_, ?_, ?_⟩
    · simp [ServerRepository_add, ha, hd]
    · intro _; simp [ServerRepository_add, ha]
    · intro hnd; exact absurd hd hnd
  · have ha : (persisted.any fun existing =>
        existing.host == server.host && existing.port == server.port &&
          existing.user == server.user) = false :=
      Bool.eq_false_iff.2 fun ht => hd (hany.1 ht)
    refine ⟨?_, ?_, ?_⟩
    · simp only [ServerRepository_add, ha]
      constructor
      · intro h; simp at h
      · intro h; exact absurd h hd
    · intro h; exact absurd h hd
    · intro _; simp [ServerRepository_add, ha]

/-- C10 witness: adding a server whose triple matches an existing entry leaves
    the list unchanged; a fresh triple is appended and returned. -/
theorem c10_add_unique_triple_witness :
    (ServerRepository_add [srvReg] srvDup).1 = [srvReg] ∧
    (ServerRepository_add [srvReg] srvNew).1 = [srvReg] ++ [srvNew] ∧
    (ServerRepository_add [srvReg] srvNew).2 = Except.ok srvNew :=
  ⟨(c10_add_unique_triple [srvReg] srvDup).2.1
      ⟨srvReg, by simp [srvReg, srvDup]⟩,
   ((c10_add_unique_triple [srvReg] srvNew).2.2 (by simp [srvReg, srvNew])).1,
   ((c10_add_unique_triple [srvReg] srvNew).2.2 (by simp [srvReg, srvNew])).2⟩

/-! ### Claim C1 -/

/-- C1: no snapshot carries a CPU sub-section.  ssh.py imports `CpuInfo` from
    app.stats.models, but models.py defines no such class (the import raises
    `ImportError` when the module loads), and both `build_error_stats` and
    `collect_stats` pass a `cpu=` keyword for which the `HostStats` class
    declares no field. -/
theorem c1_cpu_section_missing_in_models :
    ("CpuInfo" ∈ sshStatsModelImports ∧ "CpuInfo" ∉ statsModelsClassNames) ∧
    ("cpu" ∈ buildErrorStatsKwargs ∧ "cpu" ∈ collectStatsKwargs ∧
      "cpu" ∉ hostStatsFieldNames) := by
  decide

/-- C2: `collect` passes `detail=` to `collect_stats`, whose signature
    (ssh.py line 447) has no such parameter, so every call raises `TypeError`
    inside the `try` block; the handler closes and nulls the cached session.
    Starting from a cached active session, the first call makes no connection
    attempt (the handle is reused by `_ensure_connected_locked`) but returns a
    degraded snapshot and nulls the entry, and the second consecutive call
    therefore makes a connection attempt instead of reusing the session. -/
theorem c2_collect_detail_kwarg_breaks_session_reuse :
    ("detail" ∈ collectCallKwargs ∧ "detail" ∉ collectStatsParams) ∧
    (pool_collect_as_written c2Env c2Server c2Entry 0).2.2.2 = 0 ∧
    (pool_collect_as_written c2Env c2Server c2Entry 0).1.error = some collectStatsTypeError ∧
    (pool_collect_as_written c2Env c2Server c2Entry 0).2.1 =
      { client := Option.none, last_error := some collectStatsTypeError } ∧
    (pool_collect_as_written c2Env c2Server
      (pool_collect_as_written c2Env c2Server c2Entry 0).2.1
      (pool_collect_as_written c2Env c2Server c2Entry 0).2.2.1).2.2.2 = 1 := by
  refine ⟨by decide, rfl, rfl, rfl, rfl⟩

/-! ### Claim C3 -/

/-- C3: whenever ensuring connectivity fails or the stats call fails,
    `collect` swallows the exception: it returns the degraded error snapshot
    built from the exception message (so its top-level error is that
    message), records the message in the entry's `last_error`, and closes and
    nulls the cached session handle, so the next call makes a connection
    attempt. -/
theorem c3_collect_catches_and_degrades (env : PoolEnv)
    (runStats : Nat → Except String HostStats) (server : Server)
    (entry : PoolEntry) (k : Nat) (m : String)
    (h : (ensure_connected_locked env entry k).1 = Except.error m ∨
      ∃ c, (ensure_connected_locked env entry k).1 = Except.ok c ∧
        runStats c = Except.error m) :
    (pool_collect env runStats server entry k).1 = build_error_stats server m ∧
    (pool_collect env runStats server entry k).1.error = some m ∧
    (pool_collect env runStats server entry k).2.1.client = Option.none ∧
    (pool_collect env runStats server entry k).2.1.last_error = some m ∧
    (∀ k2, (ensure_connected_locked env
      (pool_collect env runStats server entry k).2.1 k2).2.2.2 = 1) := by
  have after : ∀ (k2 : Nat),
      (ensure_connected_locked env
        ({ client := Option.none, last_error := some m } : PoolEntry) k2).2.2.2 = 1 := by
    intro k2
    cases hc : env.connect k2 <;> simp [ensure_connected_locked, hc]
  rcases hE : ensure_connected_locked env entry k with ⟨res, e1, k1, n⟩
  cases res with
  | ok c =>
    have hm : runStats c = Except.error m := by
      rcases h with h1 | ⟨c2, hc2, hr⟩
      · rw [hE] at h1; simp at h1
      · rw [hE] at hc2
        simp only [Except.ok.injEq] at hc2
        rwa [hc2]
    simp only [pool_collect, hE, hm]
    exact ⟨trivial, rfl, trivial, trivial, after⟩
  | error m2 =>
    have hm : m2 = m := by
      rcases h with h1 | ⟨c2, hc2, hr⟩
      · rw [hE] at h1
        simpa using h1
      · rw [hE] at hc2; simp at hc2
    subst hm
    simp only [pool_collect, hE]
    exact ⟨trivial, rfl, trivial, trivial, after⟩

/-- C3 witness: with no cached session and a failing connect, `collect`
    returns the degraded snapshot for the connect exception and leaves a
    nulled entry recording it. -/
theorem c3_collect_catches_and_degrades_witness :
    (pool_collect c3Env (fun _ => Except.error "x") c3Server {} 0).1 =
      build_error_stats c3Server "boom" ∧
    (pool_collect c3Env (fun _ => Except.error "x") c3Server {} 0).2.1.client =
      Option.none ∧
    (pool_collect c3Env (fun _ => Except.error "x") c3Server {} 0).2.1.last_error =
      some "boom" :=
  ⟨(c3_collect_catches_and_degrades c3Env _ c3Server {} 0 "boom" (Or.inl rfl)).1,
   (c3_collect_catches_and_degrades c3Env _ c3Server {} 0 "boom" (Or.inl rfl)).2.2.1,
   (c3_collect_catches_and_degrades c3Env _ c3Server {} 0 "boom" (Or.inl rfl)).2.2.2.1⟩

/-- C4: on a pm2 JSON array containing the non-object element 1, the loop's
    unguarded `proc.get("pm_id")` raises `AttributeError`, which escapes
    `fetch_pm2_details` and propagates out of `collect_stats`: the pass
    aborts with the exception instead of returning a `HostStats`. -/
theorem c4_pm2_nonobject_element_raises :
    c4Extract "[1]" = some [JVal.int 1] ∧
    fetch_pm2_details c4Extract { stdout := "[1]", stderr := "", exit_code := 0 } =
      Except.error c4AttrError ∧
    collect_stats c4ProbeEnv c4Server = Except.error c4AttrError := by
  refine ⟨rfl, rfl, rfl⟩

/-! ### Claim C6 -/

/-- C6: the escalation retry policy.  Supervisor probe: when the first
    attempt's output carries the permission-denied signature, a non-root
    login with a non-empty password gets exactly one escalation retry, while
    a missing or empty password, or a root login, gets none.  Pm2 probe: when
    the first attempt failed with a permission-denied error message, a
    non-root login with a non-empty password gets exactly one fallback
    attempt (whose result replaces the first), and no password or a root
    login leaves the first result untouched. -/
theorem c6_escalation_retry_policy :
    (∀ (env : SupEnv) (pw user : String),
      pyContains (supJoined env.firstResult) "permission denied" = true →
      pw ≠ "" → user ≠ "root" →
      (fetch_supervisor env (some pw) user).2 = 1) ∧
    (∀ (env : SupEnv) (user : String),
      (fetch_supervisor env Option.none user).2 = 0) ∧
    (∀ (env : SupEnv) (user : String),
      (fetch_supervisor env (some "") user).2 = 0) ∧
    (∀ (env : SupEnv) (pw : Option String),
      (fetch_supervisor env pw "root").2 = 0) ∧
    (∀ (env : Pm2Env) (server : Server) (info : Pm2Info) (msg : Option String)
        (e : String),
      fetch_pm2_details env.extract env.firstResult = Except.ok (info, msg) →
      info.error = some e → pyContains e "permission denied" = true →
      (optStrTruthy server.password = true → server.user ≠ "root" →
        collect_stats_pm2 env server =
          (fetch_pm2_details env.extract env.fallbackResult).map fun r => (r.1, 2)) ∧
      (server.password = Option.none → collect_stats_pm2 env server = Except.ok (info, 1)) ∧
      (server.user = "root" → collect_stats_pm2 env server = Except.ok (info, 1))) := by
  refine ⟨?_, ?_, ?_, ?_, ?_⟩
  · intro env pw user hperm hpw huser
    have h1 : supNeedsSudo env.firstResult (some pw) user = true := by
      simp only [supNeedsSudo, Bool.and_eq_true, Bool.or_eq_true]
      refine ⟨⟨Or.inl hperm, ?_⟩, ?_⟩
      · simp [optStrTruthy, hpw]
      · simp [huser]
    simp [fetch_supervisor, h1]
  · intro env user
    simp [fetch_supervisor, supNeedsSudo, optStrTruthy]
  · intro env user
    simp [fetch_supervisor, supNeedsSudo, optStrTruthy]
  · intro env pw
    simp [fetch_supervisor, supNeedsSudo]
  · intro env server info msg e h1 h2 h3
    have hne : e ≠ "" := by
      intro h0
      subst h0
      exact absurd h3 (by decide)
    have he : optStrTruthy info.error = true := by
      rw [h2]
      simp [optStrTruthy, hne]
    refine ⟨?_, ?_, ?_⟩
    · intro hpw huser
      have hcond : (optStrTruthy info.error && optStrTruthy server.password &&
          (server.user != "root")) = true := by
        simp [he, hpw, huser]
      simp only [collect_stats_pm2, h1, hcond]
      cases hf : fetch_pm2_details env.extract env.fallbackResult <;>
        simp [hf, Except.map]
    · intro hpw
      simp [collect_stats_pm2, h1, hpw, optStrTruthy]
    · intro hroot
      simp [collect_stats_pm2, h1, hroot]

/-- C6 witness: the policy applied at concrete outputs — one retry for a
    non-root login with a password, none without a password or as root, and
    the pm2 first result kept when no password is available. -/
theorem c6_escalation_retry_policy_witness :
    (fetch_supervisor c6SupEnv (some "pw") "ubuntu").2 = 1 ∧
    (fetch_supervisor c6SupEnv Option.none "ubuntu").2 = 0 ∧
    (fetch_supervisor c6SupEnv (some "pw") "root").2 = 0 ∧
    collect_stats_pm2 c6Pm2Env c6ServerNoPw =
      Except.ok ({ error := some "permission denied" }, 1) :=
  ⟨c6_escalation_retry_policy.1 c6SupEnv "pw" "ubuntu" (by decide) (by decide) (by decide),
   c6_escalation_retry_policy.2.1 c6SupEnv "ubuntu",
   c6_escalation_retry_policy.2.2.2.1 c6SupEnv (some "pw"),
   (c6_escalation_retry_policy.2.2.2.2 c6Pm2Env c6ServerNoPw
      { error := some "permission denied" } (some "permission denied")
      "permission denied" rfl rfl (by decide)).2.1 rfl⟩

/-- The matcher agrees with the regex on a full pid/uptime line. -/
example : (supervisorMatch "web RUNNING pid 5, uptime 0:01:02".toList).map
    (fun m => ((⟨m.name⟩ : String), (⟨m.state⟩ : String), m.pid.map fun d => (⟨d⟩ : String),
      m.uptime.map fun u => (⟨u⟩ : String), m.message.map fun x => (⟨x⟩ : String))) =
    some ("web", "RUNNING", some "5", some "0:01:02", Option.none) := by decide

/-- The matcher agrees with the regex on a dash-message line. -/
example : (supervisorMatch "web FATAL - exited too quickly".toList).map
    (fun m => (m.pid, m.uptime.map fun u => (⟨u⟩ : String),
      m.message.map fun x => (⟨x⟩ : String))) =
    some (Option.none, Option.none, some "exited too quickly") := by decide

/-- The greedy uptime capture swallows a trailing dash message, as the regex
    does. -/
example : (supervisorMatch "web RUNNING pid 5, uptime 1:00:00 - note".toList).map
    (fun m => (m.uptime.map fun u => (⟨u⟩ : String), m.message)) =
    some (some "1:00:00 - note", Option.none) := by decide

/-- Name and state alone match; lines the regex rejects yield no match. -/
example : (supervisorMatch "web STOPPED".toList).isSome = true ∧
    (supervisorMatch "web".toList).isSome = false ∧
    (supervisorMatch "web RUNNING pid x, uptime 1:00".toList).isSome = false ∧
    (supervisorMatch "web RUNNING extra stuff".toList).isSome = false ∧
    (supervisorMatch "a b pid 12,uptime t".toList).isSome = false := by decide
